import Mathlib

/-! Shallow embedding of the session-orchestration core of the repository
(src/server.js, and the single-session variant src/unnamed/part_000).

JavaScript `Map` objects are modelled as association lists: `set` replaces
the value in place when the key is present (keeping insertion order) and
appends otherwise, matching `Map.prototype.set`; `get` returns the first
binding.  The two registry maps of server.js (`activeSessions`,
`pairingCodes`) store references to the same mutable session objects, so
the model keeps the session records in a `store` keyed by an allocation
counter (`nextRef`) and lets both maps hold keys into that store; mutating
a record through one map is then visible through the other, exactly as
object aliasing behaves in the source.

External collaborators (the Baileys socket, credential persistence, QR
image rendering, timers) are modelled as parameters: the pairing-code
generator takes the random draws as an argument, connection events carry
the data the callback receives, rendering success is an `Option`, and a
scheduled `setTimeout(() => createWhatsAppConnection(id), 5000)` is
recorded in `pendingReconnects` rather than executed.
-/

namespace IanTech

/-- Model of `Map.prototype.get`: first binding for the key, if any. -/
def mapGet {α β : Type} [BEq α] (m : List (α × β)) (k : α) : Option β :=
  (m.find? (fun p => p.1 == k)).map (fun p => p.2)

/-- Model of `Map.prototype.set`: replace in place when the key is present, else append. -/
def mapSet {α β : Type} [BEq α] (m : List (α × β)) (k : α) (v : β) : List (α × β) :=
  if m.any (fun p => p.1 == k) then
    m.map (fun p => if p.1 == k then (k, v) else p)
  else m ++ [(k, v)]

/-- Resolved network identity, the `sessionData.user` object built on `open`
(server.js lines 139-145). -/
structure Identity where
  id : String
  name : String
  phone : String
deriving DecidableEq, Repr

/-- The raw `sock.user` the Baileys handle exposes: `name` may be absent
(server.js line 142 defaults it to "Unknown"). -/
structure SockUser where
  id : String
  name : Option String
deriving DecidableEq, Repr

/-- One session record, the object built in `createWhatsAppConnection`
(server.js lines 77-86).  The opaque `socket` and `authState` fields are
external handles and are left out of the state. -/
structure SessionData where
  id : String
  pairingCode : String
  qr : Option String
  qrImage : Option String
  status : String
  user : Option Identity
  createdAt : Nat
deriving DecidableEq, Repr

/-- A session summary as serialized for observers (server.js lines 321-327). -/
structure Summary where
  id : String
  pairingCode : String
  status : String
  user : Option Identity
  qrAvailable : Bool
deriving DecidableEq, Repr

/-- Events emitted over the realtime channel (`io.emit` / `socket.emit`). -/
inductive Event where
  | init (sessions : List Summary)
  | qrUpdate (sessionId : String) (qrCode : String) (pairingCode : String) (status : String)
  | sessionUpdateOpen (sessionId : String) (status : String) (user : Option Identity) (pairingCode : String)
  | sessionUpdateClose (sessionId : String) (status : String)
  | qrData (sessionId : String) (qrCode : String) (pairingCode : String)
deriving DecidableEq, Repr

/-- The whole mutable state of server.js: the session store with its two
index maps, the set of scheduled reconnection timers, and the inbox of
every connected realtime observer. -/
structure ServerState where
  store : List (Nat × SessionData)
  nextRef : Nat
  activeSessions : List (String × Nat)
  pairingCodes : List (String × Nat)
  pendingReconnects : List String
  observers : List (Nat × List Event)
deriving DecidableEq, Repr

/-- The empty state the process starts from (server.js lines 48-49). -/
def s0 : ServerState :=
  { store := [], nextRef := 0, activeSessions := [], pairingCodes := [],
    pendingReconnects := [], observers := [] }

def getRef (s : ServerState) (r : Nat) : Option SessionData :=
  mapGet s.store r

/-- Mutate the session object stored at reference `r` in place. -/
def updateRef (s : ServerState) (r : Nat) (f : SessionData → SessionData) : ServerState :=
  { s with store := s.store.map (fun p => (p.1, if p.1 == r then f p.2 else p.2)) }

/-- Broadcast `io.emit`: append the event to every observer inbox. -/
def emitAll (s : ServerState) (e : Event) : ServerState :=
  { s with observers := s.observers.map (fun p => (p.1, p.2 ++ [e])) }

/-- Targeted `socket.emit`: append the event to one observer inbox. -/
def emitTo (s : ServerState) (sid : Nat) (e : Event) : ServerState :=
  { s with observers := s.observers.map (fun p => (p.1, if p.1 == sid then p.2 ++ [e] else p.2)) }

def inboxGet (s : ServerState) (sid : Nat) : Option (List Event) :=
  mapGet s.observers sid

/-- The 36-symbol alphabet of `generatePairingCode` (server.js line 53). -/
def pairingChars : String := "ABCDEFGHIJKLMNOPQRSTUVWXYZ0123456789"

/-- Model of `generatePairingCode` (server.js lines 52-59): eight draws of
`chars.charAt(Math.floor(Math.random() * chars.length))`; the random
draws are the argument.  Note the function has no access to the registry
and performs no uniqueness check. -/
def generatePairingCode (rand : Fin 8 → Fin 36) : String :=
  String.mk ((List.finRange 8).map (fun i => pairingChars.toList.getD (rand i).val 'A'))

/-- Numeric value of `DisconnectReason.loggedOut` in the Baileys library (401). -/
def loggedOut : Nat := 401

/-- Model of `createWhatsAppConnection(sessionId)` (server.js lines 69-106), up to the
point where the socket's event handlers are installed: build the session
object, key it under `sessionId || 'default'` in `activeSessions`, and key
it under its freshly generated pairing code in `pairingCodes`.  The
generated code and `Date.now()` are parameters; the returned reference is
the new session object.  Both `Map.set` calls are unconditional: nothing
rejects a duplicate key. -/
def createWhatsAppConnection (s : ServerState) (sessionId : Option String)
    (code : String) (now : Nat) : ServerState × Nat :=
  let sd : SessionData :=
    { id := sessionId.getD ("IAN-TECH-" ++ toString now)
      pairingCode := code
      qr := none
      qrImage := none
      status := "initializing"
      user := none
      createdAt := now }
  let r := s.nextRef
  ({ s with
      store := s.store ++ [(r, sd)]
      nextRef := r + 1
      activeSessions := mapSet s.activeSessions (sessionId.getD "default") r
      pairingCodes := mapSet s.pairingCodes code r }, r)

/-- One `connection.update` payload: a QR challenge (with the result of the
`qrcode.toDataURL` rendering, `none` when rendering throws), an `open`
with the current `sock.user`, or a `close` carrying
`lastDisconnect?.error?.output?.statusCode` (absent fields give `none`). -/
inductive ConnUpdate where
  | challenge (qr : String) (rendered : Option String)
  | opened (user : Option SockUser)
  | closed (statusCode : Option Nat)
deriving DecidableEq, Repr

/-- Computes `sock.user.id.split(':')[0]`: the prefix of the id before the first colon. -/
def takeUntilColon : List Char → List Char
  | [] => []
  | c :: cs => if c = ':' then [] else c :: takeUntilColon cs

/-- Build `sessionData.user` from `sock.user` (server.js lines 140-144):
`name || 'Unknown'`, and the phone is `id.split(':')[0]` with every
non-digit removed (`replace(/[^0-9]/g, '')`). -/
def resolveUser (u : SockUser) : Identity :=
  { id := u.id
    name := u.name.getD "Unknown"
    phone := String.mk ((takeUntilColon u.id.toList).filter Char.isDigit) }

/-- The `connection.update` handler of server.js (lines 109-184), acting on
the session object at reference `r`:
* `qr` branch (112-132): store the raw challenge, set status `qr_ready`,
  and when rendering succeeds store the rendered image and `io.emit` a
  `qr_update`.  There is no check of the current status.
* `open` branch (134-166): set status `connected`, resolve the user when
  `sock.user` is present, and `io.emit` a `session_update`.  The stored
  `qr` field is not touched.
* `close` branch (168-183): `shouldReconnect` is `statusCode !==
  DisconnectReason.loggedOut`; set status `disconnected`, `io.emit` a
  `session_update`, and when `shouldReconnect` schedule
  `setTimeout(() => createWhatsAppConnection(sessionData.id), 5000)`,
  recorded here by appending the session's id to `pendingReconnects`. -/
def handleConnectionUpdate (s : ServerState) (r : Nat) (u : ConnUpdate) : ServerState :=
  match getRef s r with
  | none => s
  | some sd =>
    match u with
    | .challenge q rendered =>
      let sd1 := { sd with qr := some q, status := "qr_ready" }
      let s1 := updateRef s r (fun _ => sd1)
      match rendered with
      | some img =>
        let sd2 := { sd1 with qrImage := some img }
        let s2 := updateRef s1 r (fun _ => sd2)
        emitAll s2 (.qrUpdate sd2.id img sd2.pairingCode sd2.status)
      | none => s1
    | .opened user =>
      let newUser : Option Identity :=
        match user with
        | some u0 => some (resolveUser u0)
        | none => sd.user
      let sd1 := { sd with status := "connected", user := newUser }
      let s1 := updateRef s r (fun _ => sd1)
      emitAll s1 (.sessionUpdateOpen sd1.id sd1.status sd1.user sd1.pairingCode)
    | .closed statusCode =>
      let sd1 := { sd with status := "disconnected" }
      let s1 := updateRef s r (fun _ => sd1)
      let s2 := emitAll s1 (.sessionUpdateClose sd1.id sd1.status)
      if statusCode == some loggedOut then s2
      else { s2 with pendingReconnects := s2.pendingReconnects ++ [sd1.id] }

/-- Response of `POST /api/create-session` (server.js lines 209-223): the
handler starts `createWhatsAppConnection(sessionId)` without awaiting it
and replies 200/success; no existence check is performed before creating. -/
structure CreateSessionResponse where
  httpStatus : Nat
  success : Bool
deriving DecidableEq, Repr

/-- Handler of `POST /api/create-session` (server.js lines 209-223).  The request body's
`sessionId` defaults to an `IAN-TECH-<Date.now()>` string; the (eventual)
registry effect is that of `createWhatsAppConnection(sessionId)`. -/
def apiCreateSession (s : ServerState) (reqSessionId : Option String)
    (code : String) (now : Nat) : ServerState × CreateSessionResponse :=
  let sessionId := reqSessionId.getD ("IAN-TECH-" ++ toString now)
  let s1 := (createWhatsAppConnection s (some sessionId) code now).1
  (s1, { httpStatus := 200, success := true })

/-- Outcome of `POST /api/pair-with-code` (server.js lines 225-274). -/
inductive PairResult where
  | missingFields
  | invalidPhone
  | invalidCode
  | notConnected
  | paired (sessionId : String)
deriving DecidableEq, Repr

/-- The HTTP status each `PairResult` is sent with. -/
def PairResult.httpStatus : PairResult → Nat
  | .missingFields => 400
  | .invalidPhone => 400
  | .invalidCode => 404
  | .notConnected => 400
  | .paired _ => 200

/-- JavaScript falsiness of a possibly-absent string field: absent or empty. -/
def isFalsyStr (o : Option String) : Bool :=
  o.getD "" == ""

/-- Computes `phoneNumber.replace(/\D/g, '')`: keep only the digits. -/
def cleanNumber (p : String) : String :=
  String.mk (p.toList.filter Char.isDigit)

/-- Computes `cleaned.startsWith('254')`, computed on the character lists. -/
def strStartsWith (s p : String) : Bool :=
  p.toList.isPrefixOf s.toList

/-- Handler of `POST /api/pair-with-code` (server.js lines 225-274): reject falsy
fields (400), reject a cleaned number that does not start with 254 or is
not 12 digits (400), 404 when the code is not in `pairingCodes`, 400 when
the session's status is not `connected`, otherwise send the confirmation
message and reply 200.  The returned state is the input state — the
handler never writes to the session record — and the `Bool` records
whether `sendMessage` was invoked. -/
def pairWithCode (s : ServerState) (pairingCode phoneNumber : Option String) :
    ServerState × PairResult × Bool :=
  (s,
    if isFalsyStr pairingCode || isFalsyStr phoneNumber then (.missingFields, false)
    else
      let cleaned := cleanNumber (phoneNumber.getD "")
      if !(strStartsWith cleaned "254") || cleaned.length != 12 then (.invalidPhone, false)
      else
        match (mapGet s.pairingCodes (pairingCode.getD "")).bind (getRef s) with
        | none => (.invalidCode, false)
        | some sd =>
          if sd.status != "connected" then (.notConnected, false)
          else (.paired sd.id, true))

/-- Response of `GET /api/qr/:sessionId` (server.js lines 276-294):
`notAvailable` is the 404 branch; `image` carries the challenge whose
`qrcode.toBuffer` rendering is sent (rendering itself is external). -/
inductive QrRouteResult where
  | notAvailable
  | image (qr : String)
deriving DecidableEq, Repr

/-- Handler of `GET /api/qr/:sessionId` (server.js lines 276-294):
`activeSessions.get(sessionId) || activeSessions.get('default')`, then 404
when no session was found or its `qr` field is null. -/
def apiQr (s : ServerState) (sessionId : String) : QrRouteResult :=
  match ((mapGet s.activeSessions sessionId).orElse
          (fun _ => mapGet s.activeSessions "default")).bind (getRef s) with
  | none => .notAvailable
  | some sd =>
    match sd.qr with
    | none => .notAvailable
    | some q => .image q

/-- Response of `GET /api/pairing-code/:code` (server.js lines 296-314). -/
inductive PairingLookupResult where
  | notFound
  | found (sessionId : String) (status : String) (user : Option Identity) (createdAt : Nat)
deriving DecidableEq, Repr

/-- Handler of `GET /api/pairing-code/:code` (server.js lines 296-314): look the code
up in `pairingCodes`; 404 when absent, else report the session. -/
def apiPairingCode (s : ServerState) (code : String) : PairingLookupResult :=
  match (mapGet s.pairingCodes code).bind (getRef s) with
  | none => .notFound
  | some sd => .found sd.id sd.status sd.user sd.createdAt

/-- The snapshot sent to a newly connected observer (server.js lines
321-327): one summary per entry of `activeSessions`, in insertion order. -/
def toSummary (sd : SessionData) : Summary :=
  { id := sd.id, pairingCode := sd.pairingCode, status := sd.status,
    user := sd.user, qrAvailable := sd.qr.isSome }

def sessionSummaries (s : ServerState) : List Summary :=
  s.activeSessions.filterMap (fun p => (getRef s p.2).map toSummary)

/-- Handler of `io.on('connection', ...)` (server.js lines 317-329): register the new
observer and immediately `socket.emit('init', { sessions })` with the
current snapshot, so its inbox starts as exactly that one event. -/
def subscribeObserver (s : ServerState) (sid : Nat) : ServerState :=
  { s with observers := s.observers ++ [(sid, [Event.init (sessionSummaries s)])] }

/-- The `get_qr` socket handler (server.js lines 336-347): look the id (or
'default') up and, when a rendered image is stored, emit `qr_data` to the
requesting socket only; otherwise do nothing. -/
def getQrSocket (s : ServerState) (sid : Nat) (reqSessionId : Option String) : ServerState :=
  match (mapGet s.activeSessions (reqSessionId.getD "default")).bind (getRef s) with
  | none => s
  | some sd =>
    match sd.qrImage with
    | none => s
    | some img => emitTo s sid (.qrData sd.id img sd.pairingCode)

/-- The `create_session` socket handler (server.js lines 331-334). -/
def createSessionSocket (s : ServerState) (reqSessionId : Option String)
    (code : String) (now : Nat) : ServerState :=
  (createWhatsAppConnection s (some (reqSessionId.getD ("IAN-TECH-" ++ toString now))) code now).1

/-- Every state-bearing entry point of server.js, as one step alphabet. -/
inductive Op where
  | create (sessionId : Option String) (code : String) (now : Nat)
  | connUpdate (r : Nat) (u : ConnUpdate)
  | createRoute (sessionId : Option String) (code : String) (now : Nat)
  | createSocket (sessionId : Option String) (code : String) (now : Nat)
  | pair (code phone : Option String)
  | subscribe (sid : Nat)
  | getQr (sid : Nat) (sessionId : Option String)
deriving DecidableEq, Repr

def step (s : ServerState) (op : Op) : ServerState :=
  match op with
  | .create sid code now => (createWhatsAppConnection s sid code now).1
  | .connUpdate r u => handleConnectionUpdate s r u
  | .createRoute sid code now => (apiCreateSession s sid code now).1
  | .createSocket sid code now => createSessionSocket s sid code now
  | .pair c p => (pairWithCode s c p).1
  | .subscribe sid => subscribeObserver s sid
  | .getQr sid reqId => getQrSocket s sid reqId

def run (s : ServerState) (ops : List Op) : ServerState :=
  ops.foldl step s

/-! The single-session variant (src/unnamed/part_000) keeps its state in
module-level variables; only the pieces the reconnection claims need are
modelled: `status`, the `isConnecting` guard of `connectToWhatsApp`
(lines 53-58), and the number of `setTimeout(connectToWhatsApp, 5000)`
timers currently outstanding. -/

structure BotState where
  status : String
  isConnecting : Bool
  pendingTimers : Nat
deriving DecidableEq, Repr

def botInit : BotState :=
  { status := "disconnected", isConnecting := false, pendingTimers := 0 }

/-- The `connection.update` close branch of part_000 (lines 113-129): set
status `disconnected`, drop the `isConnecting` flag, and when the close
reason is not `loggedOut` schedule one more reconnection timer. -/
def botHandleClose (b : BotState) (statusCode : Option Nat) : BotState :=
  let b1 := { b with status := "disconnected", isConnecting := false }
  if statusCode == some loggedOut then b1
  else { b1 with pendingTimers := b1.pendingTimers + 1 }

/-- Entry of `connectToWhatsApp` (part_000 lines 50-60): a no-op while
`isConnecting` is already set, else mark connecting. -/
def botConnect (b : BotState) : BotState :=
  if b.isConnecting then b
  else { b with isConnecting := true, status := "connecting" }

/-- One scheduled timer firing: consume it and run `connectToWhatsApp`. -/
def botTimerFire (b : BotState) : BotState :=
  botConnect { b with pendingTimers := b.pendingTimers - 1 }

/-! Concrete states used by counterexamples and witnesses. -/

/-- A session created as `createWhatsAppConnection("A")` with generated code
"AAAAAAAA" at time 0. -/
def sA : ServerState := (createWhatsAppConnection s0 (some "A") "AAAAAAAA" 0).1

/-- State `sA` after its handle issued a QR challenge that rendered successfully. -/
def sAqr : ServerState := handleConnectionUpdate sA 0 (.challenge "QRDATA" (some "QRIMG"))

/-- State `sAqr` after the connection opened with a resolved user. -/
def sAopen : ServerState :=
  handleConnectionUpdate sAqr 0 (.opened (some { id := "254700000000:1", name := some "Ian" }))

/-- The identity `sAopen` stores for session "A". -/
def ianUser : Identity := { id := "254700000000:1", name := "Ian", phone := "254700000000" }

/-- An all-A pairing code as actually produced by `generatePairingCode`
when every random draw is 0. -/
def exCode : String := generatePairingCode (fun _ => (0 : Fin 36))

/-- Two sessions whose generated pairing codes collide: "A" then "B",
both drawing `exCode` from the generator. -/
def c1s1 : ServerState := (createWhatsAppConnection s0 (some "A") exCode 0).1
def c1s2 : ServerState := (createWhatsAppConnection c1s1 (some "B") exCode 1).1

/-- State `sAopen` after a close classified `loggedOut`. -/
def c2s : ServerState := handleConnectionUpdate sAopen 0 (.closed (some loggedOut))

/-- State `sAopen` after two duplicate transient closes (status code 428,
`restartRequired`, is not `loggedOut`). -/
def c3s : ServerState :=
  handleConnectionUpdate (handleConnectionUpdate sAopen 0 (.closed (some 428))) 0
    (.closed (some 428))

/-- Request `POST /api/create-session` issued for the already-present id "A". -/
def c6s : ServerState × CreateSessionResponse := apiCreateSession sAopen (some "A") "BBBBBBBB" 7

/-- A session created with no caller-supplied id (the startup path), then
its QR challenge: stored under the key "default". -/
def sD : ServerState := (createWhatsAppConnection s0 none "DDDDDDDD" 0).1
def sDqr : ServerState := handleConnectionUpdate sD 0 (.challenge "DQR" (some "DIMG"))

/-! Association-list counterparts of the `Map` laws the proofs use. -/

lemma mapGet_mapVal {α β γ : Type} [BEq α] [LawfulBEq α]
    (m : List (α × β)) (f : α → β → γ) (k : α) :
    mapGet (m.map (fun p => (p.1, f p.1 p.2))) k = (mapGet m k).map (f k) := by
  induction m with
  | nil => rfl
  | cons a t ih =>
    cases h : a.1 == k with
    | true =>
      have hk : a.1 = k := by simpa using h
      simp [mapGet, List.find?, h, hk]
    | false =>
      simp only [mapGet, List.map_cons, List.find?] at ih ⊢
      simp only [h] at ih ⊢
      exact ih

lemma mapGet_append_some {α β : Type} [BEq α]
    (m m' : List (α × β)) (k : α) (v : β)
    (h : mapGet m k = some v) : mapGet (m ++ m') k = some v := by
  induction m with
  | nil => simp [mapGet, List.find?] at h
  | cons a t ih =>
    cases hp : a.1 == k with
    | true =>
      simp only [mapGet, List.find?, hp] at h ⊢
      simpa using h
    | false =>
      simp only [mapGet, List.cons_append, List.find?, hp] at h ⊢
      exact ih h

lemma mapGet_append_none {α β : Type} [BEq α]
    (m m' : List (α × β)) (k : α)
    (h : mapGet m k = none) : mapGet (m ++ m') k = mapGet m' k := by
  induction m with
  | nil => rfl
  | cons a t ih =>
    cases hp : a.1 == k with
    | true =>
      simp only [mapGet, List.find?, hp] at h
      simp at h
    | false =>
      simp only [mapGet, List.cons_append, List.find?, hp] at h ⊢
      exact ih h

lemma mapGet_mem {α β : Type} [BEq α] [LawfulBEq α]
    (m : List (α × β)) (k : α) (v : β)
    (h : mapGet m k = some v) : (k, v) ∈ m := by
  induction m with
  | nil => simp [mapGet, List.find?] at h
  | cons a t ih =>
    cases hp : a.1 == k with
    | true =>
      have hk : a.1 = k := by simpa using hp
      simp only [mapGet, List.find?, hp] at h
      simp only [Option.map_some', Option.some.injEq] at h
      cases a with
      | mk a1 a2 => simp_all
    | false =>
      simp only [mapGet, List.find?, hp] at h
      exact List.mem_cons_of_mem _ (ih h)

lemma mapGet_none_of_any_false {α β : Type} [BEq α]
    (m : List (α × β)) (k : α)
    (h : (m.any (fun p => p.1 == k)) = false) : mapGet m k = none := by
  induction m with
  | nil => rfl
  | cons a t ih =>
    simp only [List.any_cons, Bool.or_eq_false_iff] at h
    simp only [mapGet, List.find?, h.1]
    exact ih h.2

lemma mapGet_replace_self {α β : Type} [BEq α] [LawfulBEq α]
    (m : List (α × β)) (k : α) (v : β)
    (h : (m.any (fun p => p.1 == k)) = true) :
    mapGet (m.map (fun p => if p.1 == k then (k, v) else p)) k = some v := by
  induction m with
  | nil => simp at h
  | cons a t ih =>
    cases hp : a.1 == k with
    | true =>
      simp only [List.map_cons, hp, if_true, mapGet, List.find?]
      simp
    | false =>
      simp only [List.any_cons, hp, Bool.false_or] at h
      simp only [List.map_cons, hp]
      simp only [Bool.false_eq_true, if_false, mapGet, List.find?, hp]
      exact ih h

lemma mapGet_replace_ne {α β : Type} [BEq α] [LawfulBEq α]
    (m : List (α × β)) (k k' : α) (v : β) (h : k' ≠ k) :
    mapGet (m.map (fun p => if p.1 == k then (k, v) else p)) k' = mapGet m k' := by
  induction m with
  | nil => rfl
  | cons a t ih =>
    have hkk : (k == k') = false := by
      cases hq : k == k' with
      | true => exact absurd ((by simpa using hq : k = k')).symm h
      | false => rfl
    cases hp : a.1 == k with
    | true =>
      have hap : (a.1 == k') = false := by
        have hk : a.1 = k := by simpa using hp
        rw [hk]; exact hkk
      simp only [List.map_cons, hp, if_true, mapGet, List.find?, hkk, hap]
      exact ih
    | false =>
      simp only [List.map_cons, hp, Bool.false_eq_true, if_false]
      simp only [mapGet, List.find?]
      cases hq : a.1 == k' with
      | true => simp only [hq]
      | false => simp only [hq]; exact ih

lemma mapGet_set_self {α β : Type} [BEq α] [LawfulBEq α]
    (m : List (α × β)) (k : α) (v : β) :
    mapGet (mapSet m k v) k = some v := by
  unfold mapSet
  cases hmem : (m.any (fun p => p.1 == k)) with
  | true =>
    rw [if_pos rfl]
    exact mapGet_replace_self m k v hmem
  | false =>
    rw [if_neg (by simp)]
    rw [mapGet_append_none _ _ _ (mapGet_none_of_any_false m k hmem)]
    simp [mapGet, List.find?]

lemma mapGet_set_ne {α β : Type} [BEq α] [LawfulBEq α]
    (m : List (α × β)) (k k' : α) (v : β) (h : k' ≠ k) :
    mapGet (mapSet m k v) k' = mapGet m k' := by
  unfold mapSet
  cases hmem : (m.any (fun p => p.1 == k)) with
  | true =>
    rw [if_pos rfl]
    exact mapGet_replace_ne m k k' v h
  | false =>
    rw [if_neg (by simp)]
    cases hg : mapGet m k' with
    | some v' => rw [mapGet_append_some _ _ _ _ hg]
    | none =>
      rw [mapGet_append_none _ _ _ hg]
      have hkk : (k == k') = false := by
        cases hq : k == k' with
        | true => exact absurd ((by simpa using hq : k = k')).symm h
        | false => rfl
      simp [mapGet, List.find?, hkk]

lemma getRef_updateRef_self (s : ServerState) (r : Nat) (f : SessionData → SessionData) :
    getRef (updateRef s r f) r = (getRef s r).map f := by
  have h := mapGet_mapVal s.store (fun i v => if i == r then f v else v) r
  simp only [beq_self_eq_true, if_true] at h
  exact h

lemma inboxGet_emitAll (s : ServerState) (e : Event) (sid : Nat) :
    inboxGet (emitAll s e) sid = (inboxGet s sid).map (fun l => l ++ [e]) :=
  mapGet_mapVal s.observers (fun _ l => l ++ [e]) sid

lemma inboxGet_emitTo (s : ServerState) (tid : Nat) (e : Event) (sid : Nat) :
    inboxGet (emitTo s tid e) sid
      = (inboxGet s sid).map (fun l => if sid == tid then l ++ [e] else l) :=
  mapGet_mapVal s.observers (fun i l => if i == tid then l ++ [e] else l) sid

/-- C1: the claim's uniqueness invariant and its collision handling both
fail on the code: after two creations whose generated codes collide
(`generatePairingCode` drawing all zeros twice), the registry holds two
distinct non-terminated records with the same pairing code, the second
insertion was accepted (it overwrote the `pairingCodes` entry), and no
retry happened. -/
theorem C1_counterexample :
    (getRef c1s2 0).map (fun sd => sd.id) = some "A" ∧
    (getRef c1s2 1).map (fun sd => sd.id) = some "B" ∧
    (getRef c1s2 0).map (fun sd => sd.pairingCode) = some exCode ∧
    (getRef c1s2 1).map (fun sd => sd.pairingCode) = some exCode ∧
    (getRef c1s2 0).map (fun sd => sd.status) = some "initializing" ∧
    (getRef c1s2 1).map (fun sd => sd.status) = some "initializing" ∧
    mapGet c1s2.pairingCodes exCode = some 1 ∧
    mapGet c1s2.activeSessions "A" = some 0 ∧
    mapGet c1s2.activeSessions "B" = some 1 := by decide

/-- C1 (amended): `createWhatsAppConnection` inserts unconditionally — the
new record is always stored and both index maps always point at it
afterwards, whether or not the generated code (or the session key) already
had an entry; there is no collision rejection and no retry. -/
theorem C1_amended (s : ServerState) (sessionId : Option String) (code : String) (now : Nat) :
    mapGet (createWhatsAppConnection s sessionId code now).1.pairingCodes code
      = some (createWhatsAppConnection s sessionId code now).2 ∧
    mapGet (createWhatsAppConnection s sessionId code now).1.activeSessions
        (sessionId.getD "default") = some (createWhatsAppConnection s sessionId code now).2 ∧
    (createWhatsAppConnection s sessionId code now).1.store.length = s.store.length + 1 := by
  refine ⟨mapGet_set_self _ _ _, mapGet_set_self _ _ _, ?_⟩
  simp [createWhatsAppConnection]

/-- C2: a close classified `loggedOut` does not terminate the session or
release its pairing code: the status becomes "disconnected" (the code has
no terminated status at all) and the pairing-code lookup still finds the
record afterwards. -/
theorem C2_counterexample :
    (getRef c2s 0).map (fun sd => sd.status) = some "disconnected" ∧
    (getRef c2s 0).map (fun sd => sd.status) ≠ some "terminated" ∧
    apiPairingCode c2s "AAAAAAAA" = .found "A" "disconnected" (some ianUser) 0 ∧
    apiPairingCode c2s "AAAAAAAA" ≠ .notFound := by decide

/-- C2 (amended): processing a close whose status code is `loggedOut` sets
the session's status to "disconnected", leaves the `pairingCodes` map
untouched (a subsequent lookup by the pairing code still finds the
record), and schedules no reconnection. -/
theorem C2_amended (s : ServerState) (r : Nat) (sd : SessionData)
    (h : getRef s r = some sd)
    (hc : mapGet s.pairingCodes sd.pairingCode = some r) :
    (getRef (handleConnectionUpdate s r (.closed (some loggedOut))) r).map (fun x => x.status)
      = some "disconnected" ∧
    (handleConnectionUpdate s r (.closed (some loggedOut))).pairingCodes = s.pairingCodes ∧
    (handleConnectionUpdate s r (.closed (some loggedOut))).pendingReconnects
      = s.pendingReconnects ∧
    apiPairingCode (handleConnectionUpdate s r (.closed (some loggedOut))) sd.pairingCode
      = .found sd.id "disconnected" sd.user sd.createdAt := by
  have hstep : handleConnectionUpdate s r (.closed (some loggedOut))
      = emitAll (updateRef s r (fun _ => { sd with status := "disconnected" }))
          (.sessionUpdateClose sd.id "disconnected") := by
    simp [handleConnectionUpdate, h]
  have hget : getRef (handleConnectionUpdate s r (.closed (some loggedOut))) r
      = some { sd with status := "disconnected" } := by
    rw [hstep]
    show getRef (updateRef s r (fun _ => { sd with status := "disconnected" })) r = _
    rw [getRef_updateRef_self, h]
    rfl
  refine ⟨by rw [hget]; rfl, by rw [hstep]; rfl, by rw [hstep]; rfl, ?_⟩
  have hcodes : (handleConnectionUpdate s r (.closed (some loggedOut))).pairingCodes
      = s.pairingCodes := by rw [hstep]; rfl
  unfold apiPairingCode
  rw [hcodes, hc]
  simp [hget]

/-- C3: reconnection scheduling is not deduplicated.  Two duplicate
transient close events (status code 428 is not `loggedOut`) leave two
outstanding reconnection attempts for session "A" in server.js, and the
single-session variant likewise ends up with two outstanding timers even
though its `isConnecting` guard exists. -/
theorem C3_counterexample :
    (428 : Nat) ≠ loggedOut ∧
    c3s.pendingReconnects = ["A", "A"] ∧
    c3s.pendingReconnects.count "A" = 2 ∧
    (botHandleClose (botHandleClose botInit (some 428)) (some 428)).pendingTimers = 2 := by
  decide

/-- C3 (amended): every close event not classified `loggedOut` appends
exactly one reconnection attempt for the session's id, unconditionally —
so n duplicate transient closes before the timers fire leave n outstanding
attempts; nothing deduplicates the schedule. -/
theorem C3_amended (s : ServerState) (r : Nat) (sd : SessionData) (sc : Option Nat)
    (h : getRef s r = some sd) (hsc : sc ≠ some loggedOut) :
    (handleConnectionUpdate s r (.closed sc)).pendingReconnects
      = s.pendingReconnects ++ [sd.id] := by
  have hb : (sc == some loggedOut) = false := by
    cases hq : sc == some loggedOut with
    | true => exact absurd (by simpa using hq) hsc
    | false => rfl
  simp [handleConnectionUpdate, h, hb, emitAll, updateRef]

/-- C3 (witness): one transient close on the concrete connected session
schedules exactly one attempt. -/
theorem C3_witness :
    (handleConnectionUpdate sAopen 0 (.closed (some 428))).pendingReconnects
      = sAopen.pendingReconnects ++ ["A"] := by
  have h : getRef sAopen 0 = some
      { id := "A"
        pairingCode := "AAAAAAAA"
        qr := some "QRDATA"
        qrImage := some "QRIMG"
        status := "connected"
        user := some ianUser
        createdAt := 0 } := by decide
  exact C3_amended sAopen 0 _ (some 428) h (by decide)

/-- C2 (witness): the amended close behavior, applied to the concrete
connected session "A". -/
theorem C2_witness :
    (getRef (handleConnectionUpdate sAopen 0 (.closed (some loggedOut))) 0).map
      (fun x => x.status) = some "disconnected" ∧
    (handleConnectionUpdate sAopen 0 (.closed (some loggedOut))).pairingCodes
      = sAopen.pairingCodes ∧
    (handleConnectionUpdate sAopen 0 (.closed (some loggedOut))).pendingReconnects
      = sAopen.pendingReconnects ∧
    apiPairingCode (handleConnectionUpdate sAopen 0 (.closed (some loggedOut))) "AAAAAAAA"
      = .found "A" "disconnected" (some ianUser) 0 := by
  have h : getRef sAopen 0 = some
      { id := "A"
        pairingCode := "AAAAAAAA"
        qr := some "QRDATA"
        qrImage := some "QRIMG"
        status := "connected"
        user := some ianUser
        createdAt := 0 } := by decide
  exact C2_amended sAopen 0 _ h (by decide)

/-- C4: the claimed iff between a stored challenge and status QR_READY
fails, as does the clearing on CONNECTED: after challenge then open, the
concrete session is "connected" while its stored challenge is still
non-null. -/
theorem C4_counterexample :
    (getRef sAopen 0).map (fun sd => sd.status) = some "connected" ∧
    (getRef sAopen 0).map (fun sd => sd.qr) = some (some "QRDATA") ∧
    (getRef sAopen 0).map (fun sd => sd.qr) ≠ some none := by decide

/-- The qr branch always stores the challenge and sets status "qr_ready". -/
lemma handle_challenge_qr (s : ServerState) (r : Nat) (sd : SessionData)
    (q : String) (rendered : Option String) (h : getRef s r = some sd) :
    (getRef (handleConnectionUpdate s r (.challenge q rendered)) r).map
      (fun x => (x.qr, x.status)) = some (some q, "qr_ready") := by
  cases rendered with
  | none =>
    have hstep : handleConnectionUpdate s r (.challenge q none)
        = updateRef s r (fun _ => { sd with qr := some q, status := "qr_ready" }) := by
      simp [handleConnectionUpdate, h]
    rw [hstep, getRef_updateRef_self, h]
    rfl
  | some img =>
    have hstore : (handleConnectionUpdate s r (.challenge q (some img))).store
        = (updateRef (updateRef s r (fun _ => { sd with qr := some q, status := "qr_ready" })) r
            (fun _ => { sd with qr := some q, status := "qr_ready", qrImage := some img })).store := by
      simp [handleConnectionUpdate, h, emitAll]
    have hget : getRef (handleConnectionUpdate s r (.challenge q (some img))) r
        = getRef (updateRef (updateRef s r (fun _ => { sd with qr := some q, status := "qr_ready" })) r
            (fun _ => { sd with qr := some q, status := "qr_ready", qrImage := some img })) r := by
      unfold getRef
      rw [hstore]
    rw [hget, getRef_updateRef_self, getRef_updateRef_self, h]
    rfl

/-- The open branch never touches the stored challenge. -/
lemma handle_opened_qr (s : ServerState) (r : Nat) (sd : SessionData)
    (user : Option SockUser) (h : getRef s r = some sd) :
    (getRef (handleConnectionUpdate s r (.opened user)) r).map (fun x => x.qr)
      = some sd.qr := by
  cases user with
  | none =>
    have hstore : (handleConnectionUpdate s r (.opened none)).store
        = (updateRef s r (fun _ => { sd with status := "connected" })).store := by
      simp [handleConnectionUpdate, h, emitAll]
    have hget : getRef (handleConnectionUpdate s r (.opened none)) r
        = getRef (updateRef s r (fun _ => { sd with status := "connected" })) r := by
      unfold getRef
      rw [hstore]
    rw [hget, getRef_updateRef_self, h]
    rfl
  | some u0 =>
    have hstore : (handleConnectionUpdate s r (.opened (some u0))).store
        = (updateRef s r (fun _ =>
            { sd with status := "connected", user := some (resolveUser u0) })).store := by
      simp [handleConnectionUpdate, h, emitAll]
    have hget : getRef (handleConnectionUpdate s r (.opened (some u0))) r
        = getRef (updateRef s r (fun _ =>
            { sd with status := "connected", user := some (resolveUser u0) })) r := by
      unfold getRef
      rw [hstore]
    rw [hget, getRef_updateRef_self, h]
    rfl

/-- The close branch never touches the stored challenge. -/
lemma handle_closed_qr (s : ServerState) (r : Nat) (sd : SessionData)
    (sc : Option Nat) (h : getRef s r = some sd) :
    (getRef (handleConnectionUpdate s r (.closed sc)) r).map (fun x => x.qr)
      = some sd.qr := by
  have hstore : (handleConnectionUpdate s r (.closed sc)).store
      = (updateRef s r (fun _ => { sd with status := "disconnected" })).store := by
    cases hb : sc == some loggedOut with
    | true => simp [handleConnectionUpdate, h, hb, emitAll]
    | false => simp [handleConnectionUpdate, h, hb, emitAll]
  have hget : getRef (handleConnectionUpdate s r (.closed sc)) r
      = getRef (updateRef s r (fun _ => { sd with status := "disconnected" })) r := by
    unfold getRef
    rw [hstore]
  rw [hget, getRef_updateRef_self, h]
  rfl

/-- C4 (amended): a challenge event stores the challenge and sets status
"qr_ready", but no later transition clears the stored challenge: both the
open and the close branches of the handler leave the `qr` field exactly as
it was. -/
theorem C4_amended (s : ServerState) (r : Nat) (sd : SessionData)
    (h : getRef s r = some sd) :
    (∀ q rendered,
      (getRef (handleConnectionUpdate s r (.challenge q rendered)) r).map
        (fun x => (x.qr, x.status)) = some (some q, "qr_ready")) ∧
    (∀ user,
      (getRef (handleConnectionUpdate s r (.opened user)) r).map (fun x => x.qr)
        = some sd.qr) ∧
    (∀ sc,
      (getRef (handleConnectionUpdate s r (.closed sc)) r).map (fun x => x.qr)
        = some sd.qr) :=
  ⟨fun q rendered => handle_challenge_qr s r sd q rendered h,
   fun user => handle_opened_qr s r sd user h,
   fun sc => handle_closed_qr s r sd sc h⟩

/-- C4 (witness): the amended statement applied to the concrete session at
its QR stage. -/
theorem C4_witness :
    ((getRef (handleConnectionUpdate sAqr 0 (.challenge "Q9" none)) 0).map
        (fun x => (x.qr, x.status)) = some (some "Q9", "qr_ready")) ∧
    ((getRef (handleConnectionUpdate sAqr 0 (.opened none)) 0).map (fun x => x.qr)
        = some (some "QRDATA")) ∧
    ((getRef (handleConnectionUpdate sAqr 0 (.closed (some 428))) 0).map (fun x => x.qr)
        = some (some "QRDATA")) := by
  have h : getRef sAqr 0 = some
      { id := "A"
        pairingCode := "AAAAAAAA"
        qr := some "QRDATA"
        qrImage := some "QRIMG"
        status := "qr_ready"
        user := none
        createdAt := 0 } := by decide
  have hC := C4_amended sAqr 0 _ h
  exact ⟨hC.1 "Q9" none, hC.2.1 none, hC.2.2 (some 428)⟩

/-- C5: a challenge event arriving while the session is CONNECTED is not
ignored: on the concrete connected session it overwrites the challenge and
regresses the status to "qr_ready". -/
theorem C5_counterexample :
    (getRef sAopen 0).map (fun sd => sd.status) = some "connected" ∧
    (getRef (handleConnectionUpdate sAopen 0 (.challenge "QR2" (some "IMG2"))) 0).map
      (fun sd => sd.status) = some "qr_ready" ∧
    some "qr_ready" ≠ some "connected" := by decide

/-- C5 (amended): the qr branch of the handler has no status guard — a
challenge event processed while the session's status is "connected" always
sets the status back to "qr_ready" and stores the new challenge. -/
theorem C5_amended (s : ServerState) (r : Nat) (sd : SessionData)
    (q : String) (rendered : Option String)
    (h : getRef s r = some sd) (hst : sd.status = "connected") :
    (getRef (handleConnectionUpdate s r (.challenge q rendered)) r).map
      (fun x => (x.qr, x.status)) = some (some q, "qr_ready") :=
  handle_challenge_qr s r sd q rendered h

/-- C5 (witness): the amended statement at the concrete connected session. -/
theorem C5_witness :
    (getRef (handleConnectionUpdate sAopen 0 (.challenge "QR2" (some "IMG2"))) 0).map
      (fun x => (x.qr, x.status)) = some (some "QR2", "qr_ready") := by
  have h : getRef sAopen 0 = some
      { id := "A"
        pairingCode := "AAAAAAAA"
        qr := some "QRDATA"
        qrImage := some "QRIMG"
        status := "connected"
        user := some ianUser
        createdAt := 0 } := by decide
  exact C5_amended sAopen 0 _ "QR2" (some "IMG2") h rfl

/-- C6: a session-creation request whose id is already present does not
fail with 409 AlreadyExists — on the concrete state where "A" is a
connected session, the request replies 200/success and the registry key
"A" now points at a fresh record with a new pairing code and status
"initializing". -/
theorem C6_counterexample :
    mapGet sAopen.activeSessions "A" = some 0 ∧
    (getRef sAopen 0).map (fun sd => sd.status) = some "connected" ∧
    c6s.2 = { httpStatus := 200, success := true } ∧
    c6s.2.httpStatus ≠ 409 ∧
    mapGet c6s.1.activeSessions "A" = some 1 ∧
    (getRef c6s.1 1).map (fun sd => (sd.status, sd.pairingCode))
      = some ("initializing", "BBBBBBBB") := by decide

/-- C6 (amended): `POST /api/create-session` with an already-present id
performs no existence check: it always replies 200/success, repoints the
registry key at the newly created record, and leaves the old record object
itself unmodified (merely unindexed). -/
theorem C6_amended (s : ServerState) (id : String) (code : String) (now : Nat)
    (r0 : Nat) (sd0 : SessionData)
    (hpresent : mapGet s.activeSessions id = some r0)
    (hrec : getRef s r0 = some sd0) :
    (apiCreateSession s (some id) code now).2 = { httpStatus := 200, success := true } ∧
    mapGet (apiCreateSession s (some id) code now).1.activeSessions id = some s.nextRef ∧
    getRef (apiCreateSession s (some id) code now).1 r0 = some sd0 := by
  refine ⟨rfl, mapGet_set_self _ _ _, ?_⟩
  show mapGet (s.store ++ _) r0 = some sd0
  exact mapGet_append_some _ _ _ _ hrec

/-- C6 (witness): the amended creation behavior on the concrete state
where id "A" is present and connected. -/
theorem C6_witness :
    (apiCreateSession sAopen (some "A") "BBBBBBBB" 7).2
      = { httpStatus := 200, success := true } ∧
    mapGet (apiCreateSession sAopen (some "A") "BBBBBBBB" 7).1.activeSessions "A"
      = some sAopen.nextRef ∧
    getRef (apiCreateSession sAopen (some "A") "BBBBBBBB" 7).1 0 = some
      { id := "A"
        pairingCode := "AAAAAAAA"
        qr := some "QRDATA"
        qrImage := some "QRIMG"
        status := "connected"
        user := some ianUser
        createdAt := 0 } := by
  exact C6_amended sAopen "A" "BBBBBBBB" 7 0 _ (by decide) (by decide)

/-- C7: `POST /api/pair-with-code`, on a well-formed request whose code
resolves to a session record, succeeds (and sends the confirmation
message) exactly when the session's status is "connected"; any other
status yields the 400 invalid-state reply with no outbound send; and the
handler never mutates the server state, so a success leaves the session's
status unchanged. -/
theorem C7_verify_requires_connected (s : ServerState) (code phone : String)
    (r : Nat) (sd : SessionData)
    (hcode : code ≠ "")
    (hlookup : mapGet s.pairingCodes code = some r)
    (href : getRef s r = some sd)
    (hphone : strStartsWith (cleanNumber phone) "254" = true)
    (hlen : (cleanNumber phone).length = 12) :
    (pairWithCode s (some code) (some phone)).1 = s ∧
    (sd.status = "connected" →
      (pairWithCode s (some code) (some phone)).2 = (.paired sd.id, true)) ∧
    (sd.status ≠ "connected" →
      (pairWithCode s (some code) (some phone)).2 = (.notConnected, false) ∧
      PairResult.httpStatus .notConnected = 400) ∧
    (∀ x, (pairWithCode s (some code) (some phone)).2.1 = .paired x →
      sd.status = "connected") := by
  have hphoneNe : phone ≠ "" := by
    intro he
    rw [he] at hphone
    simp [cleanNumber, strStartsWith, List.isPrefixOf] at hphone
  have hfalsy : (isFalsyStr (some code) || isFalsyStr (some phone)) = false := by
    simp [isFalsyStr, hcode, hphoneNe]
  have hvalid : (!(strStartsWith (cleanNumber phone) "254")
      || (cleanNumber phone).length != 12) = false := by
    simp [hphone, hlen]
  have hres : (pairWithCode s (some code) (some phone)).2
      = (if sd.status != "connected" then (.notConnected, false)
         else (.paired sd.id, true)) := by
    show (if (isFalsyStr (some code) || isFalsyStr (some phone)) = true then _ else _) = _
    rw [if_neg (by simp [hfalsy])]
    show (if _ = true then _ else _) = _
    rw [if_neg (by simp only [Option.getD_some, hvalid]; simp)]
    simp only [Option.getD_some, hlookup, Option.some_bind, href]
  refine ⟨rfl, ?_, ?_, ?_⟩
  · intro hconn
    rw [hres, if_neg (by simp [hconn])]
  · intro hnconn
    refine ⟨?_, rfl⟩
    rw [hres, if_pos (by simpa using hnconn)]
  · intro x hx
    by_contra hnconn
    rw [hres, if_pos (by simpa using hnconn)] at hx
    simp at hx

/-- C7 (witness): on the concrete connected session the request succeeds
and sends; on the same session at its QR stage the request is rejected
with 400 and nothing is sent. -/
theorem C7_witness :
    (pairWithCode sAopen (some "AAAAAAAA") (some "+254700000000")).1 = sAopen ∧
    (pairWithCode sAopen (some "AAAAAAAA") (some "+254700000000")).2
      = (.paired "A", true) := by
  have h := C7_verify_requires_connected sAopen "AAAAAAAA" "+254700000000" 0
    { id := "A"
      pairingCode := "AAAAAAAA"
      qr := some "QRDATA"
      qrImage := some "QRIMG"
      status := "connected"
      user := some ianUser
      createdAt := 0 }
    (by decide) (by decide) (by decide) (by decide) (by decide)
  exact ⟨h.1, h.2.1 rfl⟩

lemma inboxGet_updateRef (s : ServerState) (r : Nat) (f : SessionData → SessionData)
    (sid : Nat) : inboxGet (updateRef s r f) sid = inboxGet s sid := rfl

/-- Every entry point only ever appends to an existing observer's inbox (or
leaves it alone), so the head of the inbox never changes. -/
lemma step_preserves_inbox_head (s : ServerState) (op : Op) (sid : Nat) (e : Event)
    (rest : List Event) (h : inboxGet s sid = some (e :: rest)) :
    ∃ rest', inboxGet (step s op) sid = some (e :: rest') := by
  cases op with
  | create sessionId code now => exact ⟨rest, h⟩
  | createRoute sessionId code now => exact ⟨rest, h⟩
  | createSocket sessionId code now => exact ⟨rest, h⟩
  | pair c p => exact ⟨rest, h⟩
  | subscribe sid2 => exact ⟨rest, mapGet_append_some _ _ _ _ h⟩
  | getQr sid2 reqId =>
    show ∃ rest', inboxGet (getQrSocket s sid2 reqId) sid = some (e :: rest')
    cases hl : (mapGet s.activeSessions (reqId.getD "default")).bind (getRef s) with
    | none =>
      have hstep : getQrSocket s sid2 reqId = s := by
        simp [getQrSocket, hl]
      rw [hstep]
      exact ⟨rest, h⟩
    | some sd =>
      cases hq : sd.qrImage with
      | none =>
        have hstep : getQrSocket s sid2 reqId = s := by
          simp [getQrSocket, hl, hq]
        rw [hstep]
        exact ⟨rest, h⟩
      | some img =>
        have hstep : getQrSocket s sid2 reqId
            = emitTo s sid2 (.qrData sd.id img sd.pairingCode) := by
          simp [getQrSocket, hl, hq]
        rw [hstep, inboxGet_emitTo, h]
        cases hb : sid == sid2 with
        | true =>
          exact ⟨rest ++ [Event.qrData sd.id img sd.pairingCode], by simp [hb]⟩
        | false => exact ⟨rest, by simp [hb]⟩
  | connUpdate r u =>
    show ∃ rest', inboxGet (handleConnectionUpdate s r u) sid = some (e :: rest')
    cases hg : getRef s r with
    | none =>
      have hstep : handleConnectionUpdate s r u = s := by
        simp [handleConnectionUpdate, hg]
      rw [hstep]
      exact ⟨rest, h⟩
    | some sd =>
      cases u with
      | challenge q rendered =>
        cases rendered with
        | none =>
          have hstep : handleConnectionUpdate s r (.challenge q none)
              = updateRef s r (fun _ => { sd with qr := some q, status := "qr_ready" }) := by
            simp [handleConnectionUpdate, hg]
          rw [hstep, inboxGet_updateRef]
          exact ⟨rest, h⟩
        | some img =>
          have hobs : (handleConnectionUpdate s r (.challenge q (some img))).observers
              = (emitAll s (.qrUpdate sd.id img sd.pairingCode "qr_ready")).observers := by
            simp [handleConnectionUpdate, hg, emitAll, updateRef]
          have heq : inboxGet (handleConnectionUpdate s r (.challenge q (some img))) sid
              = inboxGet (emitAll s (.qrUpdate sd.id img sd.pairingCode "qr_ready")) sid := by
            unfold inboxGet
            rw [hobs]
          refine ⟨rest ++ [.qrUpdate sd.id img sd.pairingCode "qr_ready"], ?_⟩
          rw [heq, inboxGet_emitAll, h]
          rfl
      | opened user =>
        cases user with
        | none =>
          have hobs : (handleConnectionUpdate s r (.opened none)).observers
              = (emitAll s (.sessionUpdateOpen sd.id "connected" sd.user sd.pairingCode)).observers := by
            simp [handleConnectionUpdate, hg, emitAll, updateRef]
          have heq : inboxGet (handleConnectionUpdate s r (.opened none)) sid
              = inboxGet (emitAll s (.sessionUpdateOpen sd.id "connected" sd.user sd.pairingCode)) sid := by
            unfold inboxGet
            rw [hobs]
          refine ⟨rest ++ [.sessionUpdateOpen sd.id "connected" sd.user sd.pairingCode], ?_⟩
          rw [heq, inboxGet_emitAll, h]
          rfl
        | some u0 =>
          have hobs : (handleConnectionUpdate s r (.opened (some u0))).observers
              = (emitAll s (.sessionUpdateOpen sd.id "connected" (some (resolveUser u0))
                  sd.pairingCode)).observers := by
            simp [handleConnectionUpdate, hg, emitAll, updateRef]
          have heq : inboxGet (handleConnectionUpdate s r (.opened (some u0))) sid
              = inboxGet (emitAll s (.sessionUpdateOpen sd.id "connected"
                  (some (resolveUser u0)) sd.pairingCode)) sid := by
            unfold inboxGet
            rw [hobs]
          refine ⟨rest ++ [.sessionUpdateOpen sd.id "connected" (some (resolveUser u0))
            sd.pairingCode], ?_⟩
          rw [heq, inboxGet_emitAll, h]
          rfl
      | closed sc =>
        have hobs : (handleConnectionUpdate s r (.closed sc)).observers
            = (emitAll s (.sessionUpdateClose sd.id "disconnected")).observers := by
          cases hb : sc == some loggedOut with
          | true => simp [handleConnectionUpdate, hg, hb, emitAll, updateRef]
          | false => simp [handleConnectionUpdate, hg, hb, emitAll, updateRef]
        have heq : inboxGet (handleConnectionUpdate s r (.closed sc)) sid
            = inboxGet (emitAll s (.sessionUpdateClose sd.id "disconnected")) sid := by
          unfold inboxGet
          rw [hobs]
        refine ⟨rest ++ [.sessionUpdateClose sd.id "disconnected"], ?_⟩
        rw [heq, inboxGet_emitAll, h]
        rfl

lemma run_preserves_inbox_head (ops : List Op) (s : ServerState) (sid : Nat) (e : Event)
    (h : ∃ rest, inboxGet s sid = some (e :: rest)) :
    ∃ rest, inboxGet (run s ops) sid = some (e :: rest) := by
  induction ops generalizing s with
  | nil => exact h
  | cons op t ih =>
    obtain ⟨rest, hr⟩ := h
    exact ih (step s op) (step_preserves_inbox_head s op sid e rest hr)

lemma length_filterMap_getRef (s : ServerState) (l : List (String × Nat))
    (h : ∀ p ∈ l, (getRef s p.2).isSome = true) :
    (l.filterMap (fun p => (getRef s p.2).map toSummary)).length = l.length := by
  induction l with
  | nil => rfl
  | cons a t ih =>
    have ha := h a (List.mem_cons_self a t)
    obtain ⟨sd, hsd⟩ := Option.isSome_iff_exists.mp ha
    simp only [List.filterMap_cons, hsd, Option.map_some', List.length_cons]
    rw [ih (fun p hp => h p (List.mem_cons_of_mem a hp))]

/-- C8: a newly subscribed observer's inbox holds exactly the init snapshot,
whose session count equals the size of the registry at subscription time;
and after any further sequence of server operations the init snapshot is
still the first event in that observer's inbox — every later event is
delivered after it. -/
theorem C8_snapshot_first (s : ServerState) (sid : Nat)
    (h1 : ∀ p ∈ s.activeSessions, (getRef s p.2).isSome = true)
    (h2 : inboxGet s sid = none) :
    inboxGet (subscribeObserver s sid) sid = some [Event.init (sessionSummaries s)] ∧
    (sessionSummaries s).length = s.activeSessions.length ∧
    ∀ ops : List Op, ∃ rest,
      inboxGet (run (subscribeObserver s sid) ops) sid
        = some (Event.init (sessionSummaries s) :: rest) := by
  have hsub : inboxGet (subscribeObserver s sid) sid
      = some [Event.init (sessionSummaries s)] := by
    show mapGet (s.observers ++ [(sid, [Event.init (sessionSummaries s)])]) sid = _
    rw [mapGet_append_none _ _ _ h2]
    simp [mapGet, List.find?]
  refine ⟨hsub, length_filterMap_getRef s s.activeSessions h1, ?_⟩
  intro ops
  exact run_preserves_inbox_head ops _ sid _ ⟨[], hsub⟩

/-- C8 (witness): subscribing observer 5 on the concrete one-session state
delivers exactly the one-summary snapshot. -/
theorem C8_witness :
    inboxGet (subscribeObserver sA 5) 5 = some [Event.init (sessionSummaries sA)] ∧
    (sessionSummaries sA).length = sA.activeSessions.length := by
  have h := C8_snapshot_first sA 5 (by decide) (by decide)
  exact ⟨h.1, h.2.1⟩

/-- C9: a session created with no caller-supplied id is keyed under
"default" while its `id` field is the generated `IAN-TECH-<timestamp>`
string; looking that id up as a registry key finds nothing, and "default"
is the only key that retrieves the new record. -/
theorem C9_default_key (s : ServerState) (code : String) (now : Nat)
    (h1 : mapGet s.activeSessions ("IAN-TECH-" ++ toString now) = none)
    (h2 : ∀ p ∈ s.store, p.1 < s.nextRef)
    (h3 : ∀ p ∈ s.activeSessions, p.2 < s.nextRef) :
    mapGet (createWhatsAppConnection s none code now).1.activeSessions "default"
      = some (createWhatsAppConnection s none code now).2 ∧
    getRef (createWhatsAppConnection s none code now).1
        (createWhatsAppConnection s none code now).2
      = some
        { id := "IAN-TECH-" ++ toString now
          pairingCode := code
          qr := none
          qrImage := none
          status := "initializing"
          user := none
          createdAt := now } ∧
    mapGet (createWhatsAppConnection s none code now).1.activeSessions
      ("IAN-TECH-" ++ toString now) = none ∧
    (∀ k, mapGet (createWhatsAppConnection s none code now).1.activeSessions k
        = some (createWhatsAppConnection s none code now).2 → k = "default") := by
  have hne : ("IAN-TECH-" ++ toString now) ≠ "default" := by
    intro he
    have hlen := congrArg String.length he
    rw [String.length_append] at hlen
    have h9 : ("IAN-TECH-" : String).length = 9 := rfl
    have h7 : ("default" : String).length = 7 := rfl
    omega
  have hstorenone : mapGet s.store s.nextRef = none := by
    cases hm : mapGet s.store s.nextRef with
    | none => rfl
    | some v =>
      have := h2 _ (mapGet_mem _ _ _ hm)
      omega
  refine ⟨mapGet_set_self _ _ _, ?_, ?_, ?_⟩
  · show mapGet (s.store ++ _) s.nextRef = _
    rw [mapGet_append_none _ _ _ hstorenone]
    simp [mapGet, List.find?]
  · show mapGet (mapSet s.activeSessions "default" s.nextRef) _ = none
    rw [mapGet_set_ne _ _ _ _ hne]
    exact h1
  · intro k hk
    by_contra hkne
    rw [show mapGet (createWhatsAppConnection s none code now).1.activeSessions k
          = mapGet (mapSet s.activeSessions "default" s.nextRef) k from rfl,
        mapGet_set_ne _ _ _ _ hkne] at hk
    have hlt := h3 _ (mapGet_mem _ _ _ hk)
    have hx : (createWhatsAppConnection s none code now).2 = s.nextRef := rfl
    rw [hx] at hlt
    omega

/-- C9 (witness): creating the startup session on the empty state. -/
theorem C9_witness :
    mapGet (createWhatsAppConnection s0 none "CCCCCCCC" 0).1.activeSessions "default"
      = some (createWhatsAppConnection s0 none "CCCCCCCC" 0).2 ∧
    getRef (createWhatsAppConnection s0 none "CCCCCCCC" 0).1
        (createWhatsAppConnection s0 none "CCCCCCCC" 0).2
      = some
        { id := "IAN-TECH-" ++ toString 0
          pairingCode := "CCCCCCCC"
          qr := none
          qrImage := none
          status := "initializing"
          user := none
          createdAt := 0 } ∧
    mapGet (createWhatsAppConnection s0 none "CCCCCCCC" 0).1.activeSessions
      ("IAN-TECH-" ++ toString 0) = none := by
  have h := C9_default_key s0 "CCCCCCCC" 0 rfl (by simp [s0]) (by simp [s0])
  exact ⟨h.1, h.2.1, h.2.2.1⟩

/-- The QR challenge stored for the session under the key "default", if any. -/
def defaultQr (s : ServerState) : Option String :=
  ((mapGet s.activeSessions "default").bind (getRef s)).bind (fun sd => sd.qr)

/-- C10: a QR-image request whose session id is not a registry key is
served entirely from the session under the key "default": it returns that
session's challenge image when one is stored, and 404 exactly when the
default session has no stored challenge (the requested id, being absent,
has none). -/
theorem C10_qr_fallback (s : ServerState) (sessionId : String)
    (h : mapGet s.activeSessions sessionId = none) :
    apiQr s sessionId = (match defaultQr s with
      | some q => .image q
      | none => .notAvailable) ∧
    (apiQr s sessionId = .notAvailable ↔ defaultQr s = none) := by
  have hmain : apiQr s sessionId = (match defaultQr s with
      | some q => QrRouteResult.image q
      | none => QrRouteResult.notAvailable) := by
    unfold apiQr defaultQr
    rw [h]
    rw [Option.none_orElse']
    cases hd : mapGet s.activeSessions "default" with
    | none => rfl
    | some r =>
      simp only [Option.some_bind]
      cases hr : getRef s r with
      | none => rfl
      | some sd =>
        show (match sd.qr with
              | none => QrRouteResult.notAvailable
              | some q => QrRouteResult.image q)
            = (match sd.qr with
              | some q => QrRouteResult.image q
              | none => QrRouteResult.notAvailable)
        cases sd.qr with
        | none => rfl
        | some q => rfl
  refine ⟨hmain, ?_⟩
  rw [hmain]
  cases defaultQr s with
  | none => simp
  | some q => simp

/-- C10 (witness): on the concrete state holding only a default session
with a stored challenge, a request for the unknown id "nope" serves the
default session's challenge. -/
theorem C10_witness :
    apiQr sDqr "nope" = (match defaultQr sDqr with
      | some q => .image q
      | none => .notAvailable) ∧
    (apiQr sDqr "nope" = .notAvailable ↔ defaultQr sDqr = none) :=
  C10_qr_fallback sDqr "nope" (by decide)

end IanTech
